import Mathlib

/-!
Verification development for the chicago-crime-visualization backend
(`src/backend/app/routes.py`, `src/backend/app/analytics.py`,
`src/backend/app/__init__.py`).

The Python code is shallowly embedded: pandas DataFrames become lists of
records, integer counts become `Nat`, float arithmetic on values derived
from integer counts becomes exact `ℚ` arithmetic (all quantities reachable
in the trend cascade from integer counts are finite, so `ℚ` is adequate;
the `pd.isna` / `np.isinf` guards of the source are identically false over
`ℚ` and are noted where they occur in the source).  Ambient randomness
(`np.random.uniform`, unseeded `DataFrame.sample`) is threaded explicitly
as an `Ambient` argument; seeded randomness (`random_state=42`,
`np.random.seed(42)`) is modelled as a deterministic selection.
-/

namespace ChicagoCrime

/-- One row of the cached crime dataset (see `routes.load_data`): the columns
the analytic endpoints read.  `year` is the `Year` column, `month` is
`Date.dt.month`, `dateOrd` is the date as an ordinal day number (used for
ordering timestamps and for `.days` differences).  Optional columns that the
source guards with `dropna` are `Option`-valued. -/
structure CrimeRecord where
  year : Int
  month : Nat
  dateOrd : Int
  primaryType : String
  district : Option Int
  latitude : Option ℚ
  longitude : Option ℚ
  locationDescription : Option String
  arrest : Option Bool
  domestic : Bool
deriving DecidableEq, Repr

abbrev DataFrame := List CrimeRecord

/-- Record constructor for rows where only the trend-relevant columns matter. -/
def mkRec (y : Int) (m : Nat) (o : Int) (t : String) : CrimeRecord :=
  ⟨y, m, o, t, none, none, none, none, none, false⟩

/-- Ambient process-wide randomness: `sample` is the realized draw of an
unseeded `DataFrame.sample` call (a permutation/subset selection), `uniform`
is the stream of `np.random.uniform` draws consumed by the Tier-3 jitter. -/
structure Ambient where
  sample : DataFrame → DataFrame
  uniform : Nat → ℚ

/-- Ambient state whose jitter draws are all `0` and whose sampler is the
identity (one possible realization of the process RNG). -/
def ambZero : Ambient := ⟨fun l => l, fun _ => 0⟩

/-! ### List helpers mirroring the pandas operations used by the source -/

/-- Code-point lexicographic order on character lists (Python string
comparison). -/
def charListLt : List Char → List Char → Bool
  | [], [] => false
  | [], _ :: _ => true
  | _ :: _, [] => false
  | a :: as, b :: bs =>
    if a.toNat < b.toNat then true
    else if b.toNat < a.toNat then false
    else charListLt as bs

/-- Python `str` comparison (used by `sorted` over crime-type labels). -/
def strLt (a b : String) : Bool := charListLt a.data b.data

/-- Insert `a` before the first element `b` with `lt a b`; ties keep the
existing element first, so the derived sort is stable. -/
def insertByLt (lt : α → α → Bool) (a : α) : List α → List α
  | [] => [a]
  | b :: bs => if lt a b then a :: b :: bs else b :: insertByLt lt a bs

/-- Stable insertion sort (models `Series.sort_values` / `sorted`). -/
def sortByLt (lt : α → α → Bool) (l : List α) : List α :=
  l.foldr (insertByLt lt) []

def dedupKeepFirst [BEq α] (seen : List α) : List α → List α
  | [] => []
  | a :: as =>
    if seen.contains a then dedupKeepFirst seen as
    else a :: dedupKeepFirst (a :: seen) as

/-- Distinct values in order of first occurrence (models `Series.unique`). -/
def distinctVals [BEq α] (l : List α) : List α := dedupKeepFirst [] l

/-- Last `n` elements (models `Series.tail(n)` / `iloc[-n:]`). -/
def tailN (l : List α) (n : Nat) : List α := l.drop (l.length - n)

/-- `Series.value_counts()`: distinct values with their multiplicities,
sorted by count descending (stable; pandas leaves tie order unspecified). -/
def valueCounts (l : List String) : List (String × Nat) :=
  sortByLt (fun a b => decide (b.2 < a.2))
    ((distinctVals l).map (fun t => (t, l.count t)))

/-! ### analytics.analyze_crime_trends — Tier 1 (year-over-year),
analytics.py lines 137-210 -/

/-- `sorted(df['Year'].unique())` (analytics.py line 147). -/
def yearsSorted (df : DataFrame) : List Int :=
  sortByLt (fun a b => decide (a < b)) (distinctVals (df.map (·.year)))

/-- `years[-1]` (analytics.py line 155). -/
def latestYear (df : DataFrame) : Int := (yearsSorted df).getLast?.getD 0

/-- `years[-2]` (analytics.py line 156). -/
def previousYear (df : DataFrame) : Int := ((tailN (yearsSorted df) 2).head?).getD 0

/-- Count of records of primary type `t` in year `y`
(`df[df['Year'] == y]['Primary Type'].value_counts()` entry, with the
`reindex(..., fill_value=0)` of analytics.py lines 166-167 giving `0` for
an absent type). -/
def countTypeInYear (df : DataFrame) (y : Int) (t : String) : Nat :=
  df.countP (fun r => r.year == y && r.primaryType == t)

/-- `all_types = sorted(set(latest) | set(previous))` (analytics.py line 165):
every type occurring in either of the two compared years, sorted. -/
def tier1Types (df : DataFrame) (ly py : Int) : List String :=
  sortByLt strLt
    (distinctVals ((df.filter (fun r => r.year == ly || r.year == py)).map (·.primaryType)))

/-- `pct_change = (latest_counts - previous_counts) / (previous_counts + 1) * 100`
(analytics.py line 171). -/
def tier1Pct (df : DataFrame) (ly py : Int) (t : String) : ℚ :=
  ((countTypeInYear df ly t : ℚ) - (countTypeInYear df py t : ℚ))
    / ((countTypeInYear df py t : ℚ) + 1) * 100

/-- `pct_change.sort_values(ascending=False)` (analytics.py line 174). -/
def tier1Sorted (df : DataFrame) (ly py : Int) : List (String × ℚ) :=
  sortByLt (fun a b => decide (b.2 < a.2))
    ((tier1Types df ly py).map (fun t => (t, tier1Pct df ly py t)))

/-- Significance floor (analytics.py lines 177-181): keep types with at least
5 occurrences in one of the two years; selection preserves the sorted order. -/
def tier1Significant (df : DataFrame) (ly py : Int) : List (String × ℚ) :=
  (tier1Sorted df ly py).filter
    (fun p => decide (5 ≤ countTypeInYear df ly p.1) || decide (5 ≤ countTypeInYear df py p.1))

/-- An entry of the trend response
(`{'crime_type': ..., 'avg_monthly_change': ...}`). -/
structure TrendEntry where
  crime_type : String
  avg_monthly_change : ℚ
deriving DecidableEq, Repr

/-- The trend response shape (`increasing_crimes` / `decreasing_crimes`). -/
structure TrendResult where
  increasing_crimes : List TrendEntry
  decreasing_crimes : List TrendEntry
deriving DecidableEq, Repr

/-- Tier 1 as a partial strategy (analytics.py lines 151-206): `none` is the
fall-through to `_fallback_trend_analysis` (fewer than 2 years, or both
lists empty).  `head(5)` / `tail(5)` of the single sorted significant series
become `take 5` / `tailN _ 5`.  The `pd.isna(change)` guard of lines 192/197
is identically false for values built from integer counts over `ℚ`. -/
def tier1Result (df : DataFrame) : Option TrendResult :=
  if 2 ≤ (yearsSorted df).length then
    let ly := latestYear df
    let py := previousYear df
    let sig := tier1Significant df ly py
    let inc := (sig.take 5).map (fun p => TrendEntry.mk p.1 p.2)
    let dec := (tailN sig 5).map (fun p => TrendEntry.mk p.1 p.2)
    if inc.isEmpty && dec.isEmpty then none else some ⟨inc, dec⟩
  else none

/-! ### analytics._fallback_trend_analysis — Tier 2 (month-over-month),
analytics.py lines 231-309 -/

/-- Sorted distinct calendar months in the data
(`monthly_data.sort_index()` row index, analytics.py line 246). -/
def monthsSorted (df : DataFrame) : List Nat :=
  sortByLt (fun a b => decide (a < b)) (distinctVals (df.map (·.month)))

/-- Sorted distinct primary types
(`groupby(['Month','Primary Type']).size().unstack(fill_value=0)` columns). -/
def typesSorted (df : DataFrame) : List String :=
  sortByLt strLt (distinctVals (df.map (·.primaryType)))

/-- One cell of the month-by-type count table (`unstack(fill_value=0)`). -/
def countTypeInMonth (df : DataFrame) (m : Nat) (t : String) : Nat :=
  df.countP (fun r => r.month == m && r.primaryType == t)

/-- The column of counts for type `t`, in chronological month order
(`monthly_data[crime_type].values`, analytics.py line 255). -/
def monthCountsFor (df : DataFrame) (t : String) : List Nat :=
  (monthsSorted df).map (fun m => countTypeInMonth df m t)

/-- Per-pair change with the explicit edge-case policy of
analytics.py lines 262-272. -/
def monthChange (prevCount currCount : Nat) : ℚ :=
  if prevCount == 0 && decide (0 < currCount) then
    min 100 ((currCount : ℚ) * 10)
  else if decide (0 < prevCount) && currCount == 0 then
    -(min 100 ((prevCount : ℚ) * 10))
  else
    ((currCount : ℚ) - (prevCount : ℚ)) / ((max 1 prevCount : Nat) : ℚ) * 100

/-- Walk consecutive month pairs (`for i in range(1, len(counts))`). -/
def pairChanges : List Nat → List ℚ
  | a :: b :: rest => monthChange a b :: pairChanges (b :: rest)
  | _ => []

/-- `monthly_changes`: one averaged scalar per type that has at least one
month pair (analytics.py lines 276-278). -/
def tier2Trends (df : DataFrame) : List (String × ℚ) :=
  (typesSorted df).filterMap (fun t =>
    let cs := pairChanges (monthCountsFor df t)
    if cs.isEmpty then none else some (t, cs.sum / (cs.length : ℚ)))

/-- Tier 2 as a partial strategy (analytics.py lines 238-309): `none` falls
through to Tier 3.  Top-5 / bottom-5 of the averaged trends, clipped to
`[-50, 50]`, filtered by the `0.1` noise floor; the `pd.isna` guard of
lines 302/307 is identically false over `ℚ`. -/
def tier2Result (df : DataFrame) : Option TrendResult :=
  if 2 ≤ (monthsSorted df).length then
    let tr := tier2Trends df
    if tr.isEmpty then none
    else
      let inc := ((sortByLt (fun a b => decide (b.2 < a.2)) tr).take 5).map
        (fun p => (p.1, min p.2 50))
      let dec := ((sortByLt (fun a b => decide (a.2 < b.2)) tr).take 5).map
        (fun p => (p.1, max p.2 (-50)))
      let incF := inc.filter (fun p => decide ((1 : ℚ)/10 < p.2))
      let decF := dec.filter (fun p => decide (p.2 < -((1 : ℚ)/10)))
      if !incF.isEmpty || !decF.isEmpty then
        some ⟨incF.map (fun p => TrendEntry.mk p.1 p.2),
              decF.map (fun p => TrendEntry.mk p.1 p.2)⟩
      else none
  else none

/-! ### analytics._fallback_trend_analysis — Tier 3 (recency / frequency),
analytics.py lines 313-442 -/

/-- Largest `dateOrd` in the frame (`df['Date'].max()`); `0` on empty input
(the source only evaluates it on non-empty frames). -/
def maxOrd (df : DataFrame) : Int :=
  df.foldl (fun a r => max a r.dateOrd) ((df.head?.map (·.dateOrd)).getD 0)

/-- Smallest `dateOrd` in the frame (`df['Date'].min()`). -/
def minOrd (df : DataFrame) : Int :=
  df.foldl (fun a r => min a r.dateOrd) ((df.head?.map (·.dateOrd)).getD 0)

/-- `df['Date'].max().month` (analytics.py line 338). -/
def currentMonth (df : DataFrame) : Nat :=
  ((df.find? (fun r => r.dateOrd == maxOrd df)).map (·.month)).getD 0

/-- `(data['Date'].max() - data['Date'].min()).days + 1`, with the
`if days == 0: days = 1` guard of analytics.py lines 385-388. -/
def periodDays (l : DataFrame) : Int :=
  let d := maxOrd l - minOrd l + 1
  if d == 0 then 1 else d

/-- Count of records of primary type `t` (a `value_counts` entry with the
`reindex(all_types, fill_value=0)` of analytics.py lines 376-377). -/
def countType (l : DataFrame) (t : String) : Nat :=
  l.countP (fun r => r.primaryType == t)

/-- Per-type rate change with the safe-denominator cases of
analytics.py lines 401-412 (cap at `±40`). -/
def recChange (olderRate recentRate : ℚ) : ℚ :=
  if olderRate == 0 && decide (0 < recentRate) then
    min 40 (recentRate * 20)
  else if decide (0 < olderRate) && recentRate == 0 then
    max (-40) (-(olderRate * 20))
  else if decide (0 < olderRate) then
    ((recentRate - olderRate) / olderRate) * 100
  else 0

/-- `np.linspace a b n`: `n` evenly spaced values from `a` to `b` inclusive. -/
def linspace (a b : ℚ) (n : Nat) : List ℚ :=
  if n = 0 then []
  else if n = 1 then [a]
  else (List.range n).map (fun i => a + (b - a) * (i : ℚ) / ((n : ℚ) - 1))

/-- The empty-partition early return of the recency branch
(analytics.py lines 344-368): `np.linspace`-based synthesis over the most
and least frequent types, with `±20%` jitter per entry (draws taken from
`amb.uniform` in evaluation order, increasing list first). -/
def tier3Linspace (df : DataFrame) (amb : Ambient) : TrendResult :=
  let cc := valueCounts (df.map (·.primaryType))
  let hi := cc.take 5
  let lo := tailN cc 5
  let baseHi := linspace 20 5 (min 5 hi.length)
  let baseLo := linspace (-5) (-20) (min 5 lo.length)
  let hiR := baseHi.enum.map (fun ip => ip.2 * (1 + amb.uniform ip.1))
  let loR := baseLo.enum.map (fun ip => ip.2 * (1 + amb.uniform (ip.1 + baseHi.length)))
  ⟨(hi.zip hiR).map (fun p => TrendEntry.mk p.1.1 p.2),
   (lo.zip loR).map (fun p => TrendEntry.mk p.1.1 p.2)⟩

/-- The per-type day-span-normalized rate changes of the recency branch
(analytics.py lines 370-415), sorted ascending (`trends.sort_values()`).
`all_types = sorted(set(recent) | set(older))`: recent and older partition
the frame, so this is exactly its sorted distinct types. -/
def tier3ChangesSorted (df : DataFrame) : List (String × ℚ) :=
  let recent := df.filter (fun r => r.month == currentMonth df)
  let older := df.filter (fun r => !(r.month == currentMonth df))
  sortByLt (fun a b => decide (a.2 < b.2))
    ((typesSorted df).map (fun t =>
      (t, recChange ((countType older t : ℚ) / (periodDays older : ℚ))
            ((countType recent t : ℚ) / (periodDays recent : ℚ)))))

/-- `increasing_trends = trends.iloc[-5:].sort_values(ascending=False)`
then `clip(lower=0.1, upper=40.0)` (analytics.py lines 421/425). -/
def tier3IncClipped (df : DataFrame) : List (String × ℚ) :=
  (sortByLt (fun a b => decide (b.2 < a.2)) (tailN (tier3ChangesSorted df) 5)).map
    (fun p => (p.1, min (max ((1 : ℚ)/10) p.2) 40))

/-- `decreasing_trends = trends.iloc[:5].sort_values()` then
`clip(lower=-40.0, upper=-0.1)` (analytics.py lines 422/426). -/
def tier3DecClipped (df : DataFrame) : List (String × ℚ) :=
  (sortByLt (fun a b => decide (a.2 < b.2)) ((tier3ChangesSorted df).take 5)).map
    (fun p => (p.1, max (min (-((1 : ℚ)/10)) p.2) (-40)))

/-- The non-degenerate recency computation (analytics.py lines 370-442):
the clipped trends, each entry jittered by `±10%` (draws taken from
`amb.uniform` in evaluation order, increasing list first).  The `pd.isna`
guard of lines 433/438 is identically false over `ℚ`. -/
def tier3RecencyCore (df : DataFrame) (amb : Ambient) : TrendResult :=
  ⟨(tier3IncClipped df).enum.map
      (fun ip => TrendEntry.mk ip.2.1 (ip.2.2 * (1 + amb.uniform ip.1))),
   (tier3DecClipped df).enum.map
      (fun ip => TrendEntry.mk ip.2.1
        (ip.2.2 * (1 + amb.uniform (ip.1 + (tier3IncClipped df).length))))⟩

/-- The `else` branch of the `< 10` crime-type test
(analytics.py lines 336-442): the recency computation, unless either
partition is empty, in which case the linspace synthesis runs instead. -/
def tier3Recency (df : DataFrame) (amb : Ambient) : TrendResult :=
  if (df.filter (fun r => r.month == currentMonth df)).isEmpty
      || (df.filter (fun r => !(r.month == currentMonth df))).isEmpty then
    tier3Linspace df amb
  else tier3RecencyCore df amb

/-- The final fallback of `_fallback_trend_analysis`
(analytics.py lines 316-334): with fewer than 10 distinct crime types,
synthesize `15 - 2i` / `-5 - 2i` sequences over the most/least frequent
types with `±20%` jitter; otherwise use the recency branch. -/
def tier3 (df : DataFrame) (amb : Ambient) : TrendResult :=
  let cc := valueCounts (df.map (·.primaryType))
  if cc.length < 10 then
    ⟨(cc.take 5).enum.map (fun ip =>
        TrendEntry.mk ip.2.1 ((15 - 2 * (ip.1 : ℚ)) * (1 + amb.uniform ip.1))),
     (tailN cc 5).enum.map (fun ip =>
        TrendEntry.mk ip.2.1 ((-5 - 2 * (ip.1 : ℚ)) * (1 + amb.uniform (ip.1 + 5))))⟩
  else tier3Recency df amb

/-- `_fallback_trend_analysis` (analytics.py lines 226-442): Tier 2 if it
produces a non-empty result, else Tier 3. -/
def fallbackTrendAnalysis (df : DataFrame) (amb : Ambient) : TrendResult :=
  match tier2Result df with
  | some r => r
  | none => tier3 df amb

/-- `analyze_crime_trends` (analytics.py lines 127-224): Tier 1 if it
produces a non-empty result, else the fallback cascade.  The `except`
blocks of lines 212-224 guard pandas failures that the total embedding
cannot raise. -/
def analyze_crime_trends (df : DataFrame) (amb : Ambient) : TrendResult :=
  match tier1Result df with
  | some r => r
  | none => fallbackTrendAnalysis df amb

/-- Which tier produces the response for `df` (the branch conditions of the
cascade are independent of the ambient randomness). -/
def trendsTier (df : DataFrame) : Nat :=
  if (tier1Result df).isSome then 1
  else if (tier2Result df).isSome then 2
  else 3

/-! ### routes.py — JSON encoder model (routes.py lines 12-22,
__init__.py lines 14-17) -/

/-- A CPython float as the json module sees it: finite, or one of the
non-finite values that serialize to the literal tokens `NaN`, `Infinity`,
`-Infinity`. -/
inductive PyFloat where
  | finite (q : ℚ)
  | nan
  | inf
  | ninf
deriving DecidableEq, Repr

/-- A Python value of the types the json module serializes natively. -/
inductive PyVal where
  | none
  | bool (b : Bool)
  | int (n : Int)
  | float (f : PyFloat)
  | str (s : String)
  | list (xs : List PyVal)
  | dict (kvs : List (String × PyVal))

/-- `json.encoder.floatstr` with the default `allow_nan=True`: non-finite
floats serialize to the bare tokens `NaN` / `Infinity` / `-Infinity`. -/
def renderFloat : PyFloat → String
  | .nan => "NaN"
  | .inf => "Infinity"
  | .ninf => "-Infinity"
  | .finite q => toString q

mutual

/-- `json.dumps` over natively serializable values (default separators).
The `default` hook of a `json.JSONEncoder` subclass is consulted only for
objects that are NOT natively serializable; every `PyVal` constructor is a
natively serializable type, so `CustomJSONEncoder.default` is never invoked
on these payloads and does not appear in this function. -/
def dumps : PyVal → String
  | .none => "null"
  | .bool true => "true"
  | .bool false => "false"
  | .int n => toString n
  | .float f => renderFloat f
  | .str s => "\"" ++ s ++ "\""
  | .list xs => "[" ++ dumpsList xs ++ "]"
  | .dict kvs => "\x7b" ++ dumpsDict kvs ++ "\x7d"

def dumpsList : List PyVal → String
  | [] => ""
  | [x] => dumps x
  | x :: y :: xs => dumps x ++ ", " ++ dumpsList (y :: xs)

def dumpsDict : List (String × PyVal) → String
  | [] => ""
  | [kv] => "\"" ++ kv.1 ++ "\": " ++ dumps kv.2
  | kv :: kv2 :: kvs => "\"" ++ kv.1 ++ "\": " ++ dumps kv.2 ++ ", " ++ dumpsDict (kv2 :: kvs)

end

/-- `CustomJSONEncoder.default` (routes.py lines 13-22): the mapping the
code INTENDS for non-finite floats.  `Option.none` models falling through to
`super().default`, which raises `TypeError`. -/
def customEncoderDefault : PyVal → Option PyVal
  | .float .nan => some .none
  | .float .inf => some (.float (.finite 40))
  | .float .ninf => some (.float (.finite (-40)))
  | _ => Option.none

/-! ### routes.py — filter stage and endpoints -/

/-- The outcome of a Flask handler: a payload, an explicit JSON error
response with an HTTP status code, or an exception the handler lets
propagate (Flask then emits a generic 500, not a handler-built JSON body). -/
inductive Resp (α : Type) where
  | ok (a : α)
  | jsonError (status : Nat) (msg : String)
  | unhandled (msg : String)
deriving DecidableEq

/-- Accumulate decimal digits; any non-digit character aborts the parse,
and an empty digit sequence yields `none`. -/
def parseNatDigits : List Char → Option Nat → Option Nat
  | [], acc => acc
  | c :: cs, acc =>
    if c.isDigit then parseNatDigits cs (some ((acc.getD 0) * 10 + (c.toNat - 48)))
    else Option.none

/-- Python `int(s)` for a query-string value: an optional sign followed by
at least one decimal digit; `none` models the `ValueError` raised on a
non-integer literal. -/
def parseIntOpt (s : String) : Option Int :=
  match s.data with
  | '-' :: cs => (parseNatDigits cs Option.none).map (fun n => -(n : Int))
  | cs => (parseNatDigits cs Option.none).map (fun n => (n : Int))

/-- `filtered_data[filtered_data['Year'] == int(year)]`. -/
def filterYear (df : DataFrame) (y : Int) : DataFrame :=
  df.filter (fun r => r.year == y)

/-- Case-insensitive type predicate of the raw-record endpoint
(routes.py lines 93-95): `str.upper() == crime_type.upper()`. -/
def filterTypeCI (df : DataFrame) (t : String) : DataFrame :=
  df.filter (fun r => r.primaryType.toUpper == t.toUpper)

/-- Case-sensitive type predicate of the analytic endpoints
(routes.py lines 171, 266, 306, 330): `== crime_type`. -/
def filterTypeCS (df : DataFrame) (t : String) : DataFrame :=
  df.filter (fun r => r.primaryType == t)

/-- `filtered_data[filtered_data['District'] == int(district)]`; a missing
district never equals an integer. -/
def filterDistrict (df : DataFrame) (d : Int) : DataFrame :=
  df.filter (fun r => r.district == some d)

/-- Type filter then district filter, case-insensitive type match
(second half of the routes.py lines 89-102 filter block). -/
def typeDistrictCI (d1 : DataFrame) (crimeType district : Option String) :
    Except String DataFrame :=
  let d2 := match crimeType with
    | some t => filterTypeCI d1 t
    | Option.none => d1
  match district with
  | some s =>
    match parseIntOpt s with
    | some d => Except.ok (filterDistrict d2 d)
    | Option.none => Except.error "invalid literal for int"
  | Option.none => Except.ok d2

/-- The filter block of `get_crime_data` (routes.py lines 84-106):
case-insensitive type match; `int(...)` failures surface as `Except.error`
(the `ValueError` text). -/
def crimeDataFiltered (df : DataFrame) (year crimeType district : Option String) :
    Except String DataFrame :=
  match year with
  | some s =>
    match parseIntOpt s with
    | some y => typeDistrictCI (filterYear df y) crimeType district
    | Option.none => Except.error "invalid literal for int"
  | Option.none => typeDistrictCI df crimeType district

/-- Type filter then district filter, case-sensitive type match
(second half of the analytic filter blocks). -/
def typeDistrictCS (d1 : DataFrame) (crimeType district : Option String) :
    Except String DataFrame :=
  let d2 := match crimeType with
    | some t => filterTypeCS d1 t
    | Option.none => d1
  match district with
  | some s =>
    match parseIntOpt s with
    | some d => Except.ok (filterDistrict d2 d)
    | Option.none => Except.error "invalid literal for int"
  | Option.none => Except.ok d2

/-- The shared filter block of the analytic endpoints (routes.py
lines 167-173, 261-268, 301-306, 326-332): case-sensitive type match. -/
def analyticFiltered (df : DataFrame) (year crimeType district : Option String) :
    Except String DataFrame :=
  match year with
  | some s =>
    match parseIntOpt s with
    | some y => typeDistrictCS (filterYear df y) crimeType district
    | Option.none => Except.error "invalid literal for int"
  | Option.none => typeDistrictCS df crimeType district

/-- `GET /api/crime-data` (routes.py lines 62-136): the filter block sits
inside `try/except`, so a bad `int(...)` becomes a 400 JSON error; the
response is the first 5000 filtered rows (the NaN-fill post-processing of
lines 113-127 does not alter which rows are returned). -/
def get_crime_data (df : DataFrame) (year crimeType district : Option String) :
    Resp DataFrame :=
  match crimeDataFiltered df year crimeType district with
  | Except.ok rows => Resp.ok (rows.take 5000)
  | Except.error e => Resp.jsonError 400 ("Error applying filters: " ++ e)

/-- Chicago-center fallback point `[41.8781, -87.6298]`. -/
def chicagoCenter : ℚ × ℚ := (418781/10000, -876298/10000)

/-- `GET /api/heatmap-data` (routes.py lines 155-197): the filter block is
NOT wrapped in `try/except`, so a bad `int(...)` propagates as an unhandled
`ValueError`.  `sample(5000, random_state=42)` is seeded and modelled as a
deterministic selection of 5000 rows. -/
def get_heatmap_data (df : DataFrame) (year crimeType district : Option String) :
    Resp (List (ℚ × ℚ)) :=
  match analyticFiltered df year crimeType district with
  | Except.error e => Resp.unhandled ("ValueError: " ++ e)
  | Except.ok rows =>
    if rows.length == 0 then Resp.ok [chicagoCenter]
    else
      let capped := if 5000 < rows.length then rows.take 5000 else rows
      let coords := capped.filterMap (fun r =>
        match r.latitude, r.longitude with
        | some la, some lo => some (la, lo)
        | _, _ => Option.none)
      let valid := coords.filter (fun c =>
        decide (30 < c.1) && decide (c.1 < 50) && decide (-100 < c.2) && decide (c.2 < -70))
      Resp.ok (if valid.isEmpty then [chicagoCenter] else valid)

/-! ### analytics.perform_cluster_analysis and routes.get_clusters -/

/-- One entry of `cluster_centers`. -/
structure ClusterCenter where
  cluster_id : Int
  lat : ℚ
  lon : ℚ
  count : Nat
deriving DecidableEq, Repr

/-- The Cluster Result shape (`cluster_counts` as an association list in
ascending label order, per `value_counts().sort_index()`). -/
structure ClusterResult where
  n_clusters : Nat
  cluster_centers : List ClusterCenter
  cluster_counts : List (Int × Nat)
deriving DecidableEq, Repr

/-- `perform_cluster_analysis` (analytics.py lines 10-73).  The DBSCAN call
is the documented black box: `labels` is its output, one label per
coordinate, `-1` marking noise.  The seeded 10000-point subsample of
lines 24-28 (`np.random.seed(42)`) is modelled as a deterministic `take`
applied by the caller.  Centers are arithmetic means of the assigned
points; counts come from `value_counts().sort_index()` with `-1` dropped. -/
def perform_cluster_analysis (coords : List (ℚ × ℚ)) (labels : List Int) : ClusterResult :=
  let n := (distinctVals labels).length - (if labels.contains (-1) then 1 else 0)
  if n == 0 then ⟨0, [], []⟩
  else
    let counts := ((sortByLt (fun a b => decide (a < b)) (distinctVals labels)).filter
      (fun l => !(l == -1))).map (fun l => (l, labels.count l))
    let centers := (List.range n).filterMap (fun cid =>
      let pts := (coords.zip labels).filter (fun p => p.2 == (cid : Int))
      if pts.isEmpty then Option.none
      else some ⟨(cid : Int), (pts.map (·.1.1)).sum / (pts.length : ℚ),
                 (pts.map (·.1.2)).sum / (pts.length : ℚ), pts.length⟩)
    ⟨n, centers, counts⟩

/-- Result of a Python positional call: `TypeError` when the number of
supplied positional arguments does not match the callee's parameter count. -/
inductive PyCall (α : Type) where
  | ok (a : α)
  | typeErrorWrongArity (expected got : Nat)
deriving DecidableEq

/-- Python call semantics for positional arguments. -/
def callPositional (arity got : Nat) (f : Unit → α) : PyCall α :=
  if got == arity then PyCall.ok (f ()) else PyCall.typeErrorWrongArity arity got

/-- `def perform_cluster_analysis(df):` (analytics.py line 10) declares
exactly one positional parameter. -/
def perform_cluster_analysis_arity : Nat := 1

/-- `GET /api/clusters` (routes.py lines 250-289): unprotected filter block;
fewer than 100 rows short-circuits to a zero-cluster payload; otherwise a
seeded 15000-row sample is taken and routes.py line 287 invokes
`perform_cluster_analysis(sample_data, crime_type)` with TWO positional
arguments.  `dbscanLabels` is the black-box DBSCAN labelling. -/
def get_clusters (df : DataFrame) (year crimeType district : Option String)
    (dbscanLabels : List (ℚ × ℚ) → List Int) (_amb : Ambient) : Resp ClusterResult :=
  match analyticFiltered df year crimeType district with
  | Except.error e => Resp.unhandled ("ValueError: " ++ e)
  | Except.ok rows =>
    if rows.length < 100 then Resp.ok ⟨0, [], []⟩
    else
      let sample := rows.take (min 15000 rows.length)
      let coords0 := sample.filterMap (fun r =>
        match r.latitude, r.longitude with
        | some la, some lo => some (la, lo)
        | _, _ => Option.none)
      let coords := if 10000 < coords0.length then coords0.take 10000 else coords0
      match callPositional perform_cluster_analysis_arity 2
          (fun _ => perform_cluster_analysis coords (dbscanLabels coords)) with
      | PyCall.ok r => Resp.ok r
      | PyCall.typeErrorWrongArity _ _ => Resp.unhandled "TypeError"

/-! ### analytics.predict_arrest_probability and routes.get_arrest_prediction -/

/-- The success payload of the arrest predictor. -/
structure PredPayload where
  train_accuracy : ℚ
  test_accuracy : ℚ
  top_features : List (String × ℚ)
deriving DecidableEq, Repr

/-- `predict_arrest_probability` outcome: the structured insufficient-data
marker of analytics.py lines 93-97, or a model result. -/
inductive PredResult where
  | insufficientData
  | ok (p : PredPayload)
deriving DecidableEq, Repr

/-- `df.dropna(subset=['Primary Type', 'Location Description', 'Arrest'])`
(analytics.py line 86); `primaryType` is total in this model. -/
def usableRows (df : DataFrame) : DataFrame :=
  df.filter (fun r => r.locationDescription.isSome && r.arrest.isSome)

/-- `train_test_split(..., test_size=0.2, random_state=42)`
(analytics.py lines 100-101): seeded, hence a fixed deterministic function
of the input sequence; modelled as a positional 80/20 split. -/
def trainTestSplit (l : DataFrame) : DataFrame × DataFrame :=
  (l.take (l.length - l.length / 5), l.drop (l.length - l.length / 5))

/-- `predict_arrest_probability` (analytics.py lines 75-125).  The
RandomForest training/evaluation (seeded, deterministic in its input) is the
documented black box `model`, mapping the train/test rows to the metrics
payload. -/
def predict_arrest_probability (df : DataFrame)
    (model : DataFrame × DataFrame → PredPayload) : PredResult :=
  let usable := usableRows df
  if usable.length < 100 then PredResult.insufficientData
  else PredResult.ok (model (trainTestSplit usable))

/-- `GET /api/arrest-prediction` (routes.py lines 291-312): unprotected
filter block, then routes.py line 309 samples
`filtered_data.sample(min(10000, len(filtered_data)))` with NO
`random_state` — the draw comes from the ambient process RNG
(`amb.sample`), not from any fixed seed. -/
def get_arrest_prediction (df : DataFrame) (year crimeType : Option String)
    (model : DataFrame × DataFrame → PredPayload) (amb : Ambient) : Resp PredResult :=
  match analyticFiltered df year crimeType Option.none with
  | Except.error e => Resp.unhandled ("ValueError: " ++ e)
  | Except.ok rows =>
    let sampled := (amb.sample rows).take (min 10000 rows.length)
    Resp.ok (predict_arrest_probability sampled model)

/-! ### routes.get_crime_trends — final response layer -/

/-- The post-processing of routes.py lines 338-357 applied to the analytics
result: entries with non-finite values are dropped (identically false over
`ℚ`); a positive increasing-list entry becomes `min 40 |c|`; a negative
decreasing-list entry becomes `max (-40) (-|c|)`; entries of the other sign
pass through unchanged. -/
def routeTrends (df : DataFrame) (amb : Ambient) : TrendResult :=
  let tr := analyze_crime_trends df amb
  ⟨tr.increasing_crimes.map (fun e =>
      if 0 < e.avg_monthly_change then
        TrendEntry.mk e.crime_type (min 40 |e.avg_monthly_change|)
      else e),
   tr.decreasing_crimes.map (fun e =>
      if e.avg_monthly_change < 0 then
        TrendEntry.mk e.crime_type (max (-40) (-|e.avg_monthly_change|))
      else e)⟩

/-- `GET /api/crime-trends` (routes.py lines 314-359): unprotected filter
block, then the trend cascade and the final clamp layer. -/
def get_crime_trends (df : DataFrame) (year crimeType district : Option String)
    (amb : Ambient) : Resp TrendResult :=
  match analyticFiltered df year crimeType district with
  | Except.error e => Resp.unhandled ("ValueError: " ++ e)
  | Except.ok rows => Resp.ok (routeTrends rows amb)

/-- Whether a handler outcome is a handler-built JSON error response. -/
def Resp.isJsonError : Resp α → Bool
  | Resp.jsonError _ _ => true
  | _ => false

/-! ### Concrete datasets used to evaluate the pipeline -/

/-- Two years of a single crime type: 20 ASSAULT records in 2023, 5 in 2024.
Tier 1 applies (two years; `5 ≥ 5` meets the significance floor) and the
single significant change is `(5 - 20)/(20 + 1) * 100 = -500/7 ≈ -71.4`. -/
def dfAssault : DataFrame :=
  List.replicate 20 (mkRec 2023 1 10 "ASSAULT") ++
    List.replicate 5 (mkRec 2024 1 400 "ASSAULT")

/-- The spec's own Tier-1 example: type A (THEFT) 10 → 15 and type B
(BATTERY) 20 → 5 across 2023/2024. -/
def dfSpecExample : DataFrame :=
  List.replicate 10 (mkRec 2023 1 10 "THEFT") ++
    List.replicate 15 (mkRec 2024 1 400 "THEFT") ++
    List.replicate 20 (mkRec 2023 2 40 "BATTERY") ++
    List.replicate 5 (mkRec 2024 2 430 "BATTERY")

def tenTypes : List String := ["T0", "T1", "T2", "T3", "T4", "T5", "T6", "T7", "T8", "T9"]

/-- Ten crime types over two months of one year: each type occurs once in
month 1 (spread over ordinal days 1..31) and once in month 2 (all on day 32).
Every month-over-month change is 0, so Tier 2 produces empty lists and the
cascade reaches the Tier-3 recency branch, where the recent-month rate
per-day is 31 times the older rate and every change caps at +40. -/
def dfTenTypes : DataFrame :=
  [mkRec 2023 1 1 "T0"] ++ (tenTypes.drop 1).map (fun t => mkRec 2023 1 31 t)
    ++ tenTypes.map (fun t => mkRec 2023 2 32 t)

/-- Ambient state whose jitter draws are all `1/20` (within the `±10%`
jitter range of analytics.py lines 431/436). -/
def ambJitter : Ambient := ⟨fun l => l, fun _ => 1/20⟩

/-- Ambient state whose unseeded sampler realizes the reversed permutation
(every permutation is a possible draw of `DataFrame.sample(n)`). -/
def ambRev : Ambient := ⟨fun l => l.reverse, fun _ => 0⟩

/-- A usable arrest-model row with `Arrest = True`. -/
def recArrest : CrimeRecord :=
  ⟨2023, 1, 1, "THEFT", none, none, none, some "STREET", some true, false⟩

/-- A usable arrest-model row with `Arrest = False`. -/
def recNoArrest : CrimeRecord :=
  ⟨2023, 1, 1, "THEFT", none, none, none, some "STREET", some false, false⟩

/-- 100 usable rows: 80 arrests followed by 20 non-arrests. -/
def dfArrests : DataFrame :=
  List.replicate 80 recArrest ++ List.replicate 20 recNoArrest

/-- One admissible black-box classifier behavior: the reported training
accuracy is the fraction of `Arrest = True` rows in the training split (a
deterministic function of the split it is handed, as the seeded
RandomForest is). -/
def modelByTrainArrests : DataFrame × DataFrame → PredPayload :=
  fun p => ⟨(p.1.countP (fun r => r.arrest == some true) : ℚ) / 100, 0, []⟩

/-- A single fully-populated record, replicated to build large frames. -/
def recBase : CrimeRecord :=
  ⟨2023, 1, 1, "THEFT", some 1, some 41, some (-87), some "STREET", some true, false⟩

/-- 100 identical rows: enough volume for /api/clusters to pass its
100-row short-circuit and reach the clustering call. -/
def dfHundred : DataFrame := List.replicate 100 recBase

/-- Three ARSON records: one in month 1, two in month 2 (Tier-2 input with
a single month pair whose change is `(2-1)/1*100 = 100`). -/
def dfArson : DataFrame :=
  [mkRec 2023 1 1 "ARSON", mkRec 2023 2 2 "ARSON", mkRec 2023 2 3 "ARSON"]

/-! ### Supporting lemmas -/

theorem snd_mem_of_mem_enumFrom (l : List α) :
    ∀ (n : Nat) (p : Nat × α), p ∈ l.enumFrom n → p.2 ∈ l := by
  induction l with
  | nil => intro n p h; simp [List.enumFrom] at h
  | cons a as ih =>
    intro n p h
    rw [List.enumFrom, List.mem_cons] at h
    rcases h with h | h
    · rw [h]; exact List.mem_cons_self a as
    · exact List.mem_cons_of_mem a (ih (n + 1) p h)

theorem snd_mem_of_mem_enum {l : List α} {p : Nat × α} (h : p ∈ l.enum) : p.2 ∈ l :=
  snd_mem_of_mem_enumFrom l 0 p h

/-! ### Claim theorems -/

set_option maxRecDepth 8000 in
unseal Rat.mul Rat.inv Rat.add Rat.sub in
/-- C1 counterexample: on a dataset whose only significant year-over-year
change is `-500/7 ≈ -71.4`, the final `/api/crime-trends` increasing list
keeps that entry unchanged — a negative value of magnitude above 40 — so
the response layer neither forces increasing entries non-negative nor caps
all magnitudes at 40. -/
theorem C1_counterexample :
    (routeTrends dfAssault ambZero).increasing_crimes =
      [TrendEntry.mk "ASSAULT" (-500/7)] ∧
    ((-500 : ℚ)/7 < 0 ∧ 40 < |(-500 : ℚ)/7|) := by
  decide

/-- C1 (amended): in the final `/api/crime-trends` response every
increasing-list entry is at most `40` and every decreasing-list entry at
least `-40` (and all values are finite, being exact rationals); the final
layer clamps only entries of the expected sign, so an increasing entry may
be negative — with magnitude above 40 — and a decreasing entry positive. -/
theorem C1_route_bounds (df : DataFrame) (amb : Ambient) (e : TrendEntry) :
    (e ∈ (routeTrends df amb).increasing_crimes → e.avg_monthly_change ≤ 40) ∧
    (e ∈ (routeTrends df amb).decreasing_crimes → -40 ≤ e.avg_monthly_change) := by
  constructor
  · intro he
    have he' : e ∈ (analyze_crime_trends df amb).increasing_crimes.map
        (fun x => if 0 < x.avg_monthly_change then
          TrendEntry.mk x.crime_type (min 40 |x.avg_monthly_change|) else x) := he
    rw [List.mem_map] at he'
    obtain ⟨x, _, hfe⟩ := he'
    by_cases h : 0 < x.avg_monthly_change
    · rw [if_pos h] at hfe
      rw [← hfe]
      exact min_le_left _ _
    · rw [if_neg h] at hfe
      rw [← hfe]
      linarith [le_of_not_lt h]
  · intro he
    have he' : e ∈ (analyze_crime_trends df amb).decreasing_crimes.map
        (fun x => if x.avg_monthly_change < 0 then
          TrendEntry.mk x.crime_type (max (-40) (-|x.avg_monthly_change|)) else x) := he
    rw [List.mem_map] at he'
    obtain ⟨x, _, hfe⟩ := he'
    by_cases h : x.avg_monthly_change < 0
    · rw [if_pos h] at hfe
      rw [← hfe]
      exact le_max_left _ _
    · rw [if_neg h] at hfe
      rw [← hfe]
      linarith [le_of_not_lt h]

set_option maxRecDepth 8000 in
unseal Rat.mul Rat.inv Rat.add Rat.sub in
/-- C1 witness: the amended bound applied to the concrete response entry. -/
theorem C1_route_bounds_witness :
    (TrendEntry.mk "ASSAULT" ((-500 : ℚ)/7)).avg_monthly_change ≤ 40 :=
  (C1_route_bounds dfAssault ambZero (TrendEntry.mk "ASSAULT" ((-500 : ℚ)/7))).1
    (by decide)

set_option maxRecDepth 8000 in
unseal Rat.mul Rat.inv Rat.add Rat.sub in
/-- C2 counterexample: on the spec's own example counts (A: 10 → 15,
B: 20 → 5) the Tier-1 formula gives A's change as `500/11 ≈ 45.45`, which
is not approximately `23.8` (it is more than 20 points away). -/
theorem C2_counterexample :
    (analyze_crime_trends dfSpecExample ambZero).increasing_crimes.head? =
      some (TrendEntry.mk "THEFT" (500/11)) ∧
    ¬ |(500 : ℚ)/11 - 238/10| < 1 := by
  decide

set_option maxRecDepth 8000 in
unseal Rat.mul Rat.inv Rat.add Rat.sub in
/-- C2 (amended): the Tier-1 change is
`(latest_count - previous_count) / (previous_count + 1) * 100` for every
crime type; on the example counts A's change is positive and approximately
`45.5` (exactly `500/11`) and B's is negative and approximately `-71.4`
(exactly `-500/7`). -/
theorem C2_tier1_formula :
    (∀ df ly py t, tier1Pct df ly py t =
      ((countTypeInYear df ly t : ℚ) - (countTypeInYear df py t : ℚ))
        / ((countTypeInYear df py t : ℚ) + 1) * 100) ∧
    (analyze_crime_trends dfSpecExample ambZero).increasing_crimes =
      [TrendEntry.mk "THEFT" (500/11), TrendEntry.mk "BATTERY" (-500/7)] ∧
    ((0 : ℚ) < 500/11 ∧ |(500 : ℚ)/11 - 455/10| < 1/10) ∧
    ((-500 : ℚ)/7 < 0 ∧ |(-500 : ℚ)/7 - (-714/10)| < 1/10) := by
  exact ⟨fun df ly py t => rfl, by decide, by decide, by decide⟩

set_option maxRecDepth 8000 in
unseal Rat.mul Rat.inv Rat.add Rat.sub in
/-- C10: the two lists of one trend response are not disjoint: with only
two qualifying crime types (fewer than 10), `head(5)` and `tail(5)` of the
single sorted change series both contain THEFT (and BATTERY). -/
theorem C10_overlap :
    "THEFT" ∈ (analyze_crime_trends dfSpecExample ambZero).increasing_crimes.map
      (·.crime_type) ∧
    "THEFT" ∈ (analyze_crime_trends dfSpecExample ambZero).decreasing_crimes.map
      (·.crime_type) := by
  decide

/-- C5 (code bug): serializing a payload holding a NaN leaf emits the
literal token `NaN` — the json module serializes floats itself and consults
an encoder's `default` hook only for objects it cannot serialize, so
`CustomJSONEncoder.default` (whose mapping, second conjunct, would send
NaN to null) is never reached and the documented sanitization never runs. -/
theorem C5_nan_token_emitted :
    dumps (PyVal.dict [("avg_monthly_change", PyVal.float PyFloat.nan)]) =
      "\x7b\"avg_monthly_change\": NaN\x7d" ∧
    customEncoderDefault (PyVal.float PyFloat.nan) = some PyVal.none :=
  ⟨rfl, rfl⟩

theorem jitter_prod_abs_le (v u : ℚ) (hl : -40 ≤ v) (hr : v ≤ 40)
    (hu : |u| ≤ 1/10) : |v * (1 + u)| ≤ 44 := by
  rw [abs_le] at hu ⊢
  constructor <;> nlinarith [hu.1, hu.2]

set_option maxRecDepth 8000 in
unseal Rat.mul Rat.inv Rat.add Rat.sub in
/-- C3 counterexample: a ten-type dataset whose recency-branch changes all
cap at `+40`; with the admissible jitter draw `+5%` the first emitted
increasing entry is `42`, of magnitude above the claimed bound `40`. -/
theorem C3_counterexample :
    |ambJitter.uniform 0| ≤ 1/10 ∧
    (tier3Recency dfTenTypes ambJitter).increasing_crimes.head? =
      some (TrendEntry.mk "T0" 42) ∧ (40 : ℚ) < 42 := by
  decide

/-- C3 (amended): in the Tier-3 recency branch (both partitions non-empty),
with every jitter draw in the `±10%` range, every emitted
`avg_monthly_change` has magnitude at most `44 = 40 × 1.1`: the values are
clipped to `±40` before the jitter multiplies them by up to `1.1`. -/
theorem C3_jitter_bound (df : DataFrame) (amb : Ambient)
    (hu : ∀ i, |amb.uniform i| ≤ 1/10)
    (hrec : (df.filter (fun r => r.month == currentMonth df)).isEmpty = false)
    (hold : (df.filter (fun r => !(r.month == currentMonth df))).isEmpty = false)
    (e : TrendEntry)
    (he : e ∈ (tier3Recency df amb).increasing_crimes ∨
          e ∈ (tier3Recency df amb).decreasing_crimes) :
    |e.avg_monthly_change| ≤ 44 := by
  have hcore : tier3Recency df amb = tier3RecencyCore df amb := by
    rw [tier3Recency, hrec, hold]
    rfl
  rw [hcore] at he
  rcases he with he | he
  · rw [tier3RecencyCore] at he
    simp only [List.mem_map] at he
    obtain ⟨ip, hip, hfe⟩ := he
    have hmem := snd_mem_of_mem_enum hip
    rw [tier3IncClipped, List.mem_map] at hmem
    obtain ⟨q, _, hq⟩ := hmem
    have hval : ip.2.2 = min (max ((1 : ℚ)/10) q.2) 40 := by
      rw [← hq]
    rw [← hfe]
    have hl : -40 ≤ ip.2.2 := by
      rw [hval]
      exact le_min (le_trans (by norm_num) (le_max_left _ _)) (by norm_num)
    have hr : ip.2.2 ≤ 40 := by
      rw [hval]; exact min_le_right _ _
    exact jitter_prod_abs_le _ _ hl hr (hu ip.1)
  · rw [tier3RecencyCore] at he
    simp only [List.mem_map] at he
    obtain ⟨ip, hip, hfe⟩ := he
    have hmem := snd_mem_of_mem_enum hip
    rw [tier3DecClipped, List.mem_map] at hmem
    obtain ⟨q, _, hq⟩ := hmem
    have hval : ip.2.2 = max (min (-((1 : ℚ)/10)) q.2) (-40) := by
      rw [← hq]
    rw [← hfe]
    have hl : -40 ≤ ip.2.2 := by
      rw [hval]; exact le_max_right _ _
    have hr : ip.2.2 ≤ 40 := by
      rw [hval]
      exact max_le (le_trans (min_le_left _ _) (by norm_num)) (by norm_num)
    exact jitter_prod_abs_le _ _ hl hr (hu _)

set_option maxRecDepth 8000 in
unseal Rat.mul Rat.inv Rat.add Rat.sub in
/-- C3 witness: the amended bound applied to the concrete first entry of
the ten-type dataset with all jitter draws at `+5%`. -/
theorem C3_jitter_bound_witness :
    |(TrendEntry.mk "T0" (42 : ℚ)).avg_monthly_change| ≤ 44 :=
  C3_jitter_bound dfTenTypes ambJitter
    (fun i => by show |(1 : ℚ)/20| ≤ 1/10; rw [abs_le]; constructor <;> norm_num)
    (by decide) (by decide)
    (TrendEntry.mk "T0" (42 : ℚ)) (Or.inl (by decide))

/-- C4: the Tier-2 per-pair change follows exactly the three documented
cases (zero-to-positive emergence capped at 100, positive-to-zero
disappearance capped at -100, otherwise the relative change over
`max 1 old`), and each crime type's scalar trend is the arithmetic mean of
its consecutive-month pairwise changes. -/
theorem C4_tier2_pairwise :
    (∀ prevCount currCount : Nat,
      (prevCount = 0 → 0 < currCount →
        monthChange prevCount currCount = min 100 ((currCount : ℚ) * 10)) ∧
      (0 < prevCount → currCount = 0 →
        monthChange prevCount currCount = -(min 100 ((prevCount : ℚ) * 10))) ∧
      (¬(prevCount = 0 ∧ 0 < currCount) → ¬(0 < prevCount ∧ currCount = 0) →
        monthChange prevCount currCount =
          ((currCount : ℚ) - (prevCount : ℚ)) / ((max 1 prevCount : Nat) : ℚ) * 100)) ∧
    (∀ df t v, (t, v) ∈ tier2Trends df →
      pairChanges (monthCountsFor df t) ≠ [] ∧
      v = (pairChanges (monthCountsFor df t)).sum
            / ((pairChanges (monthCountsFor df t)).length : ℚ)) := by
  constructor
  · intro prevCount currCount
    refine ⟨?_, ?_, ?_⟩
    · intro h0 hc
      subst h0
      simp [monthChange, hc]
    · intro h0 hc
      subst hc
      simp [monthChange, h0.ne']
    · intro hn1 hn2
      rcases Nat.eq_zero_or_pos prevCount with h1 | h1
      · rcases Nat.eq_zero_or_pos currCount with h2 | h2
        · subst h1; subst h2; simp [monthChange]
        · exact absurd ⟨h1, h2⟩ hn1
      · rcases Nat.eq_zero_or_pos currCount with h2 | h2
        · exact absurd ⟨h1, h2⟩ hn2
        · simp [monthChange, h1.ne', h2.ne']
  · intro df t v h
    rw [tier2Trends, List.mem_filterMap] at h
    obtain ⟨a, _, hfa⟩ := h
    by_cases hE : (pairChanges (monthCountsFor df a)).isEmpty
    · rw [if_pos hE] at hfa
      exact absurd hfa (by simp)
    · rw [if_neg hE] at hfa
      have hpair := Option.some.inj hfa
      have ha : a = t := congrArg Prod.fst hpair
      have hv := congrArg Prod.snd hpair
      subst ha
      refine ⟨by simpa using hE, hv.symm⟩

set_option maxRecDepth 8000 in
unseal Rat.mul Rat.inv Rat.add Rat.sub in
/-- C4 witness: each case of the pairwise formula at concrete counts, and
the mean property on a concrete three-record frame whose single trend entry
averages one pairwise change of `100`. -/
theorem C4_tier2_pairwise_witness :
    monthChange 0 3 = min 100 ((3 : ℚ) * 10) ∧
    monthChange 2 0 = -(min 100 ((2 : ℚ) * 10)) ∧
    monthChange 4 6 = ((6 : ℚ) - (4 : ℚ)) / ((max 1 4 : Nat) : ℚ) * 100 ∧
    (100 : ℚ) = (pairChanges (monthCountsFor dfArson "ARSON")).sum
                  / ((pairChanges (monthCountsFor dfArson "ARSON")).length : ℚ) := by
  refine ⟨(C4_tier2_pairwise.1 0 3).1 rfl (by norm_num),
          (C4_tier2_pairwise.1 2 0).2.1 (by norm_num) rfl,
          (C4_tier2_pairwise.1 4 6).2.2 (by simp) (by simp),
          (C4_tier2_pairwise.2 dfArson "ARSON" 100 (by decide)).2⟩

/-- C6 counterexample: `/api/heatmap-data` with the non-integer year value
`abc` does not produce a JSON error object — the `ValueError` from
`int(year)` propagates unhandled (routes.py lines 168-169 sit outside any
`try` block). -/
theorem C6_counterexample :
    get_heatmap_data [] (some "abc") Option.none Option.none =
      Resp.unhandled "ValueError: invalid literal for int" ∧
    (get_heatmap_data [] (some "abc") Option.none Option.none).isJsonError = false := by
  exact ⟨rfl, rfl⟩

/-- C6 (amended): on a non-integer `year` value only `/api/crime-data`
degrades to a well-formed 400 JSON error; `/api/heatmap-data` (whose filter
block is not wrapped in `try/except`) lets the `ValueError` propagate as an
unhandled fault. -/
theorem C6_filter_errors (df : DataFrame) (s : String)
    (h : parseIntOpt s = Option.none) :
    get_crime_data df (some s) Option.none Option.none =
      Resp.jsonError 400 "Error applying filters: invalid literal for int" ∧
    get_heatmap_data df (some s) Option.none Option.none =
      Resp.unhandled "ValueError: invalid literal for int" := by
  constructor
  · simp [get_crime_data, crimeDataFiltered, h]
  · simp [get_heatmap_data, analyticFiltered, h]

/-- C6 witness: the amended behavior at the concrete value `abc`. -/
theorem C6_filter_errors_witness :
    get_crime_data [] (some "abc") Option.none Option.none =
      Resp.jsonError 400 "Error applying filters: invalid literal for int" :=
  (C6_filter_errors [] "abc" (by decide)).1

/-- C7 (code bug): whenever the filtered data reaches the clustering call
(at least 100 rows), routes.py line 287 invokes
`perform_cluster_analysis(sample_data, crime_type)` with two positional
arguments, but analytics.py line 10 declares a single parameter — every
such request dies with an unhandled `TypeError` and never returns the
Cluster Result the claim describes. -/
theorem C7_clusters_type_error (df : DataFrame)
    (labels : List (ℚ × ℚ) → List Int) (amb : Ambient)
    (h : 100 ≤ df.length) :
    get_clusters df Option.none Option.none Option.none labels amb =
      Resp.unhandled "TypeError" := by
  have hfilters : analyticFiltered df Option.none Option.none Option.none =
      Except.ok df := rfl
  simp [get_clusters, hfilters, callPositional, perform_cluster_analysis_arity,
    Nat.not_lt.mpr h]

/-- C7 witness: the TypeError outcome on a concrete 100-row frame. -/
theorem C7_clusters_type_error_witness :
    get_clusters dfHundred Option.none Option.none Option.none
      (fun _ => []) ambZero = Resp.unhandled "TypeError" :=
  C7_clusters_type_error dfHundred (fun _ => []) ambZero (by decide)

/-- C8: with only a `type` filter present, `/api/crime-data` retains a
record iff its primary type matches the query case-insensitively
(uppercased equality), while the analytic filter block retains it iff the
primary type matches exactly. -/
theorem C8_case_sensitivity (df : DataFrame) (t : String) (r : CrimeRecord) :
    crimeDataFiltered df Option.none (some t) Option.none =
      Except.ok (filterTypeCI df t) ∧
    analyticFiltered df Option.none (some t) Option.none =
      Except.ok (filterTypeCS df t) ∧
    (r ∈ filterTypeCI df t ↔ r ∈ df ∧ r.primaryType.toUpper = t.toUpper) ∧
    (r ∈ filterTypeCS df t ↔ r ∈ df ∧ r.primaryType = t) := by
  refine ⟨rfl, rfl, ?_, ?_⟩
  · simp [filterTypeCI, List.mem_filter]
  · simp [filterTypeCS, List.mem_filter]

set_option maxRecDepth 8000 in
unseal Rat.mul Rat.inv Rat.add Rat.sub in
/-- C9 counterexample: `/api/arrest-prediction` samples its rows WITHOUT a
seed (routes.py line 309), so two calls with identical filters on the same
cached dataset — whose ambient RNG realizes, say, the identity and the
reversing permutation — hand different train/test splits to the classifier
and return different output. -/
theorem C9_counterexample :
    get_arrest_prediction dfArrests Option.none Option.none
      modelByTrainArrests ambZero ≠
    get_arrest_prediction dfArrests Option.none Option.none
      modelByTrainArrests ambRev := by
  decide

/-- C9 (amended): `/api/clusters` (fully seeded) and `/api/crime-trends`
outside Tier 3 never consult the ambient RNG, so repeated calls with
identical filters agree; `/api/arrest-prediction` is excluded because its
row sampling is unseeded. -/
theorem C9_determinism (df : DataFrame) (year crimeType district : Option String)
    (labels : List (ℚ × ℚ) → List Int) (amb1 amb2 : Ambient)
    (h : trendsTier df ≠ 3) :
    get_clusters df year crimeType district labels amb1 =
      get_clusters df year crimeType district labels amb2 ∧
    routeTrends df amb1 = routeTrends df amb2 := by
  constructor
  · rfl
  · have hA : analyze_crime_trends df amb1 = analyze_crime_trends df amb2 := by
      rw [analyze_crime_trends, analyze_crime_trends,
        fallbackTrendAnalysis, fallbackTrendAnalysis]
      cases h1 : tier1Result df with
      | some r => rfl
      | none =>
        cases h2 : tier2Result df with
        | some r => rfl
        | none =>
          exact absurd (by simp [trendsTier, h1, h2]) h
    rw [routeTrends, routeTrends, hA]

set_option maxRecDepth 8000 in
unseal Rat.mul Rat.inv Rat.add Rat.sub in
/-- C9 witness: determinism applied to the concrete Tier-1 dataset under
two distinct ambient RNG states. -/
theorem C9_determinism_witness :
    get_clusters dfAssault Option.none Option.none Option.none
        (fun _ => []) ambZero =
      get_clusters dfAssault Option.none Option.none Option.none
        (fun _ => []) ambRev ∧
    routeTrends dfAssault ambZero = routeTrends dfAssault ambRev :=
  C9_determinism dfAssault Option.none Option.none Option.none
    (fun _ => []) ambZero ambRev (by decide)

end ChicagoCrime
